import Mathlib

/-!
Verification of the PyBackPilot downloader (src/downloader/FivaPaisaDownloader.py).

The development shallowly embeds the `FivePaisaDownloader` class:

* the scrip-master lookup store becomes a list of `ScripRecord` rows in table
  order (SQLite returns rows in insertion/rowid order when no ORDER BY is
  given, so `cursor.fetchone()` / `LIMIT 1` is `List.find?`);
* the SQL comparisons are translated with SQLite's actual semantics: in
  `Name = ? AND Exch = 'N' COLLATE NOCASE` the postfix `COLLATE NOCASE`
  operator binds tighter than `AND` and attaches to the `Exch = 'N'`
  comparison, so `Name` is compared with the column's default BINARY
  collation while `Exch` is compared ASCII-case-insensitively; `LIKE` is
  ASCII-case-insensitive with `%`/`_` wildcards;
* dates are modelled as day ordinals (`Nat`); `datetime.strptime` of a
  `YYYY-MM-DD` string is the environment's `toDay`, `timedelta(days := n)`
  is addition, and `strftime` round-trips, so fetch ranges are passed as
  day ordinals;
* the external collaborators (filesystem, market-data API) are an explicit
  `Env` of functions, and a run produces a `Trace` of the lookup, fetch and
  write effects next to its `Except` outcome;
* a `raise` becomes `Except.error`, with one constructor per raise site.
-/

deriving instance DecidableEq for Except

namespace PyBackPilot

/-- ASCII lower-casing: SQLite's NOCASE collation folds only the 26 ASCII
upper-case letters. -/
def asciiLower (c : Char) : Char :=
  if 'A' ≤ c ∧ c ≤ 'Z' then Char.ofNat (c.toNat + 32) else c

/-- SQLite NOCASE string equality (ASCII case folding on both sides). -/
def nocaseEq (a b : String) : Bool :=
  a.data.map asciiLower == b.data.map asciiLower

/-- SQLite LIKE matcher on explicit character lists: `%` matches any run of
characters, `_` any single character, and plain characters compare after
ASCII case folding.  The first argument is structural fuel; every recursive
call shrinks `pattern.length + s.length`, so fuel
`pattern.length + s.length + 1` always suffices. -/
def likeMatchF : Nat → List Char → List Char → Bool
  | 0, _, _ => false
  | _ + 1, [], s => s.isEmpty
  | n + 1, '%' :: ps, s =>
    likeMatchF n ps s ||
      (match s with
       | [] => false
       | _ :: s' => likeMatchF n ('%' :: ps) s')
  | n + 1, '_' :: ps, s =>
    (match s with
     | [] => false
     | _ :: s' => likeMatchF n ps s')
  | n + 1, p :: ps, s =>
    (match s with
     | [] => false
     | c :: s' => (asciiLower p == asciiLower c) && likeMatchF n ps s')

/-- SQLite `s LIKE pattern` (default, ASCII-case-insensitive). -/
def sqlLike (pattern s : String) : Bool :=
  likeMatchF (pattern.data.length + s.data.length + 1) pattern.data s.data

/-- One row of the `scrip_master` table
(columns Exch, ExchType, ScripCode, Name, Expiry, StrikeRate, FullName). -/
structure ScripRecord where
  exch : String
  exchType : String
  scripCode : Int
  name : String
  expiry : String
  strikeRate : Rat
  fullName : String
deriving DecidableEq

/-- Errors, one constructor per `raise` site of the downloader (plus
`typeError` for the `result[0]` subscript of `None` in the
partial-search log line of `get_scrip_code_by_name`). -/
inductive RunError where
  /-- "Arguments missing. Please provide all the arguments" -/
  | missingArguments
  /-- "Not connected. Call connect() first." -/
  | notConnected
  /-- "Invalid Time Frame ..." (7-valued list, `validate_exchange_segment_and_time`) -/
  | invalidTimeFrame
  /-- "Invalid Exchange ..." -/
  | invalidExchange
  /-- "Invalid Exchange Segment ..." -/
  | invalidSegment
  /-- TypeError: the f-string on the no-match path subscripts `result[0]` while `result` is `None` -/
  | typeError
  /-- "No matches found for the scrip name ..." -/
  | noMatchesFound (name : String)
  /-- "Could not find scrip codes for all the Scrip names provided" -/
  | codesLengthMismatch
  /-- "Could not find scrip name for scrip code: ..." -/
  | nameNotFoundForCode (code : Int)
  /-- "Could not fetch historical data ..." (the API returned None) -/
  | fetchFailed
  /-- "Invalid Time Frame ..." (6-valued list, `get_historical_intraday_data`) -/
  | invalidIntradayTimeFrame
  /-- "No data found ... from from_date to to_date" (zero non-empty chunks) -/
  | noDataInRange
deriving DecidableEq

/-- Tier predicate of the exact-match queries
`SELECT ScripCode FROM scrip_master WHERE Name = ? AND Exch = ex COLLATE NOCASE`:
`Name` uses the column's BINARY collation, `Exch` the NOCASE collation. -/
def exactTier (db : List ScripRecord) (name exch : String) : Option ScripRecord :=
  db.find? (fun r => r.name == name && nocaseEq r.exch exch)

/-- Tier predicate of the substring queries
`SELECT ScripCode FROM scrip_master WHERE Name LIKE '%name%' AND Exch = ex COLLATE NOCASE LIMIT 1`. -/
def likeTier (db : List ScripRecord) (name exch : String) : Option ScripRecord :=
  db.find? (fun r => sqlLike ("%" ++ name ++ "%") r.name && nocaseEq r.exch exch)

/-- Embedding of `get_scrip_code_by_name` (lines 157-204).  The four queries
run in source order and the first non-`None` `fetchone` result wins.  When
both exact tiers missed, `searched_partially` is `True`; the closing log
line then evaluates `result[0]` unconditionally, which on the all-tiers-miss
path subscripts `None` and raises a TypeError before the `return` line. -/
def get_scrip_code_by_name (db : List ScripRecord) (name : String) :
    Except RunError (Option Int) :=
  match exactTier db name "N" with
  | some r => .ok (some r.scripCode)
  | none =>
    match exactTier db name "B" with
    | some r => .ok (some r.scripCode)
    | none =>
      -- searched_partially = True from here on
      let result :=
        match likeTier db name "N" with
        | some r => some r
        | none => likeTier db name "B"
      match result with
      | some r => .ok (some r.scripCode)
      | none => .error .typeError

/-- Embedding of `get_scrip_name_by_code` (lines 206-226):
`SELECT Name, FullName, Exch FROM scrip_master WHERE ScripCode = ?`. -/
def get_scrip_name_by_code (db : List ScripRecord) (scrip_code : Int) :
    Option (String × String × String) :=
  (db.find? (fun r => r.scripCode == scrip_code)).map
    (fun r => (r.name, r.fullName, r.exch))

/-- Rows of a fetched data frame: (day ordinal, seconds within the day). -/
abbrev DataFrame := List (Nat × Nat)

/-- Observable effects of a run: scrip-name lookups and code lookups against
the scrip-master store, external market-data fetch calls
(code, range start day, range end day), and artifact writes (path, table). -/
structure Trace where
  nameLookups : List String
  codeLookups : List Int
  fetches : List (Int × Nat × Nat)
  writes : List (String × DataFrame)
deriving DecidableEq

def emptyTrace : Trace := ⟨[], [], [], []⟩

/-- External collaborators and ambient state: whether `connect()` ran, the
scrip-master store, `os.path.exists`, `client.historical_data` (returning
`none` for an unavailable API, `some []` for an empty frame), and
`datetime.strptime(·, "%Y-%m-%d")` as a day ordinal. -/
structure Env where
  connected : Bool
  db : List ScripRecord
  fileExists : String → Bool
  fetch : String → String → Int → String → Nat → Nat → Option DataFrame
  toDay : String → Nat

/-- self.time_list -/
def time_list : List String := ["1m", "5m", "10m", "15m", "30m", "60m", "1d"]

/-- keys of self.exchange_map -/
def exchange_keys : List String := ["N", "B", "M", "n"]

/-- keys of self.exchange_segment_map -/
def exchange_segment_keys : List String := ["c", "d", "u", "x", "y"]

/-- self.exchange_map.get(e, e) -/
def exchange_map (e : String) : String :=
  if e = "N" then "NSE"
  else if e = "B" then "BSE"
  else if e = "M" then "MCX"
  else if e = "n" then "NCDEX"
  else e

/-- self.exchange_segment_map.get(s, s) -/
def exchange_segment_map (s : String) : String :=
  if s = "c" then "Cash"
  else if s = "d" then "Derivatives"
  else if s = "u" then "Currency_Derivatives"
  else if s = "x" then "NCDEX_Commodity"
  else if s = "y" then "NSE_BSE_Commodity"
  else s

/-- Embedding of `validate_exchange_segment_and_time` (lines 228-237). -/
def validate_exchange_segment_and_time (time_period exchange exchange_segment : String) :
    Except RunError Unit :=
  if time_period ∉ time_list then .error .invalidTimeFrame
  else if exchange ∉ exchange_keys then .error .invalidExchange
  else if exchange_segment ∉ exchange_segment_keys then .error .invalidSegment
  else .ok ()

/-- Artifact path
`data/{name}/{name}_{exchange_name}_{segment_name}_{time_period}_{from}_to_{to}.csv`. -/
def mkFileName (scrip_name exchange_name segment_name time_period from_date to_date : String) :
    String :=
  "data/" ++ scrip_name ++ "/" ++ scrip_name ++ "_" ++ exchange_name ++ "_" ++
    segment_name ++ "_" ++ time_period ++ "_" ++ from_date ++ "_to_" ++ to_date ++ ".csv"

/-- Daily-path timestamp normalisation: `datetime.strptime(x, ...).date()`
discards the time-of-day component of every row. -/
def stripTime (df : DataFrame) : DataFrame := df.map (fun r => (r.1, 0))

/-- Python dict assignment `m[k] = v`: updates in place if the key exists
(keeping its position), otherwise appends. -/
def dictInsert (m : List (Int × String)) (k : Int) (v : String) : List (Int × String) :=
  if m.any (fun p => p.1 == k) then m.map (fun p => if p.1 == k then (k, v) else p)
  else m ++ [(k, v)]

/-- `dict(zip(ks, vs))`, iterated in insertion order. -/
def dictOfZip (ks : List Int) (vs : List String) : List (Int × String) :=
  (ks.zip vs).foldl (fun m p => dictInsert m p.1 p.2) []

/-- The name-resolution loop of `get_historical_data` (lines 259-265): every
name is resolved in list order; the first failure raises and aborts.  Returns
the collected codes together with the list of names actually looked up. -/
def resolveAll (db : List ScripRecord) : List String → Except RunError (List Int) × List String
  | [] => (.ok [], [])
  | n :: ns =>
    match get_scrip_code_by_name db n with
    | .error e => (.error e, [n])
    | .ok none => (.error (.noMatchesFound n), [n])
    | .ok (some c) =>
      match resolveAll db ns with
      | (.error e, lk) => (.error e, n :: lk)
      | (.ok cs, lk) => (.ok (c :: cs), n :: lk)

/-- The code-to-name loop of `get_historical_data` (lines 271-277). -/
def resolveNamesBack (db : List ScripRecord) : List Int → Except RunError (List String) × List Int
  | [] => (.ok [], [])
  | c :: cs =>
    match get_scrip_name_by_code db c with
    | none => (.error (.nameNotFoundForCode c), [c])
    | some t =>
      match resolveNamesBack db cs with
      | (.error e, cl) => (.error e, c :: cl)
      | (.ok ns, cl) => (.ok (t.1 :: ns), c :: cl)

/-- Chunk schedule of the intraday while-loop (lines 350-370), with the fetch
and accumulation stripped out:
`while current < end: emit (current, min(end, current+180)); current = that_end + 1`.
The first argument is structural fuel; the loop advances `current` by at
least one day per iteration, so fuel `end - current` always suffices. -/
def intradayChunksF : Nat → Nat → Nat → List (Nat × Nat)
  | 0, _, _ => []
  | n + 1, current, endD =>
    if current < endD then
      (current, min endD (current + 180)) ::
        intradayChunksF n (min endD (current + 180) + 1) endD
    else []

/-- Chunk schedule for a concrete range (fuel instantiated sufficiently). -/
def intradayChunks (current endD : Nat) : List (Nat × Nat) :=
  intradayChunksF (endD - current) current endD

/-- The intraday chunk loop (lines 353-370) for one security: fetches each
chunk, aborts on an unavailable (`None`) result, skips empty frames, and
accumulates non-empty ones in chunk order.  Also returns the fetch calls
made.  Fuel as in `intradayChunksF`. -/
def intradayLoopF (env : Env) (exchange exchange_segment : String) (code : Int)
    (time_period : String) :
    Nat → Nat → Nat → Except RunError (List DataFrame) × List (Int × Nat × Nat)
  | 0, _, _ => (.ok [], [])
  | n + 1, current, endD =>
    if current < endD then
      let ce := min endD (current + 180)
      match env.fetch exchange exchange_segment code time_period current ce with
      | none => (.error .fetchFailed, [(code, current, ce)])
      | some df =>
        let r := intradayLoopF env exchange exchange_segment code time_period n (ce + 1) endD
        if df.isEmpty then (r.1, (code, current, ce) :: r.2)
        else
          match r.1 with
          | .error e => (.error e, (code, current, ce) :: r.2)
          | .ok dfs => (.ok (df :: dfs), (code, current, ce) :: r.2)
    else (.ok [], [])

/-- The chunk loop for a concrete range. -/
def intradayLoop (env : Env) (exchange exchange_segment : String) (code : Int)
    (time_period : String) (current endD : Nat) :
    Except RunError (List DataFrame) × List (Int × Nat × Nat) :=
  intradayLoopF env exchange exchange_segment code time_period (endD - current) current endD

/-- The per-security loop of `get_historical_intraday_data` (lines 337-381):
skip if the final artifact exists (checked once, before the chunk loop);
otherwise run the chunk loop, raise `noDataInRange` if no chunk produced
data, else concatenate the accumulated frames in chunk order into one
artifact and continue with the next security. -/
def intradayOuter (env : Env) (exchange exchange_segment time_period from_date to_date
    exchange_name segment_name : String) :
    List (Int × String) → Except RunError Unit × Trace
  | [] => (.ok (), emptyTrace)
  | (code, name) :: rest =>
    let file_name := mkFileName name exchange_name segment_name time_period from_date to_date
    if env.fileExists file_name then
      intradayOuter env exchange exchange_segment time_period from_date to_date
        exchange_name segment_name rest
    else
      let s := env.toDay from_date
      let e := env.toDay to_date
      let r := intradayLoop env exchange exchange_segment code time_period s e
      match r.1 with
      | .error er => (.error er, ⟨[], [], r.2, []⟩)
      | .ok dfs =>
        if dfs.length = 0 then (.error .noDataInRange, ⟨[], [], r.2, []⟩)
        else
          let rest' := intradayOuter env exchange exchange_segment time_period from_date to_date
            exchange_name segment_name rest
          (rest'.1, ⟨[], [], r.2 ++ rest'.2.fetches, (file_name, dfs.flatten) :: rest'.2.writes⟩)

/-- self.time_list restricted to intraday buckets (line 326). -/
def intraday_time_list : List String := ["1m", "5m", "10m", "15m", "30m", "60m"]

/-- Embedding of `get_historical_intraday_data` (lines 316-381).  The
`scrip_codes_map is None` guard has no counterpart: the argument is a
dict built by the caller and is modelled as the (possibly empty) list of
its entries. -/
def get_historical_intraday_data (env : Env) (exchange exchange_segment : String)
    (scrip_codes_map : List (Int × String)) (time_period from_date to_date : String) :
    Except RunError Unit × Trace :=
  if time_period ∉ intraday_time_list then (.error .invalidIntradayTimeFrame, emptyTrace)
  else
    intradayOuter env exchange exchange_segment time_period from_date to_date
      (exchange_map exchange) (exchange_segment_map exchange_segment) scrip_codes_map

/-- The daily-path loop of `get_historical_data` (lines 288-311): per
security, skip if the artifact exists; otherwise one fetch for the full
range; `None` aborts the batch, an empty frame is logged and skipped, a
non-empty frame is written with times stripped. -/
def dailyLoop (env : Env) (exchange exchange_segment time_period from_date to_date
    exchange_name segment_name : String) :
    List (Int × String) → Except RunError Unit × Trace
  | [] => (.ok (), emptyTrace)
  | (code, name) :: rest =>
    let file_name := mkFileName name exchange_name segment_name time_period from_date to_date
    if env.fileExists file_name then
      dailyLoop env exchange exchange_segment time_period from_date to_date
        exchange_name segment_name rest
    else
      let d1 := env.toDay from_date
      let d2 := env.toDay to_date
      match env.fetch exchange exchange_segment code time_period d1 d2 with
      | none => (.error .fetchFailed, ⟨[], [], [(code, d1, d2)], []⟩)
      | some df =>
        let r := dailyLoop env exchange exchange_segment time_period from_date to_date
          exchange_name segment_name rest
        if df.isEmpty then
          (r.1, ⟨[], [], (code, d1, d2) :: r.2.fetches, r.2.writes⟩)
        else
          (r.1, ⟨[], [], (code, d1, d2) :: r.2.fetches,
            (file_name, stripTime df) :: r.2.writes⟩)

/-- Embedding of `get_historical_data` (lines 239-314): argument-emptiness
check, connectedness check, validation, name resolution, code-to-name
resolution, dict build, then the daily or the intraday path by granularity. -/
def get_historical_data (env : Env) (exchange exchange_segment : String)
    (scrip_names : List String) (time_period from_date to_date : String) :
    Except RunError Unit × Trace :=
  if exchange = "" ∨ exchange_segment = "" ∨ scrip_names.length = 0 ∨
      time_period = "" ∨ from_date = "" ∨ to_date = "" then
    (.error .missingArguments, emptyTrace)
  else if env.connected = false then
    (.error .notConnected, emptyTrace)
  else
    match validate_exchange_segment_and_time time_period exchange exchange_segment with
    | .error e => (.error e, emptyTrace)
    | .ok _ =>
      match resolveAll env.db scrip_names with
      | (.error e, lk) => (.error e, ⟨lk, [], [], []⟩)
      | (.ok codes, lk) =>
        if codes.length ≠ scrip_names.length then
          (.error .codesLengthMismatch, ⟨lk, [], [], []⟩)
        else
          match resolveNamesBack env.db codes with
          | (.error e, cl) => (.error e, ⟨lk, cl, [], []⟩)
          | (.ok names2, cl) =>
            let m := dictOfZip codes names2
            if time_period = "1d" then
              let r := dailyLoop env exchange exchange_segment time_period from_date to_date
                (exchange_map exchange) (exchange_segment_map exchange_segment) m
              (r.1, ⟨lk, cl, r.2.fetches, r.2.writes⟩)
            else
              let r := get_historical_intraday_data env exchange exchange_segment m
                time_period from_date to_date
              (r.1, ⟨lk, cl, r.2.fetches, r.2.writes⟩)

/-! ### Concrete stores and environments used to instantiate the theorems -/

/-- NSE row whose name strictly contains "RELIANCE". -/
def rowN : ScripRecord := ⟨"N", "C", 1, "RELIANCEPOWER", "", 0, "Reliance Power"⟩

/-- BSE row named exactly "RELIANCE". -/
def rowB : ScripRecord := ⟨"B", "C", 2, "RELIANCE", "", 0, "Reliance Industries"⟩

/-- NCDEX row (Exch is the lower-case code 'n'). -/
def ncdexRow : ScripRecord := ⟨"n", "C", 42, "ABC", "", 0, "ABC Commodities"⟩

/-- NSE row whose name differs from "ABC" only in letter case. -/
def nseMixedCaseRow : ScripRecord := ⟨"N", "C", 3, "Abc", "", 0, "Abc Ltd"⟩

/-- NSE row named "X" with code 5. -/
def nseRow : ScripRecord := ⟨"N", "C", 5, "X", "", 0, "X Ltd"⟩

/-- Environment for the fencepost range: "F" parses to day 0 and "T" to
day 181 (for example 2020-01-01 and 2020-06-30), the artifact is absent, and
every fetch returns a non-empty frame. -/
def envFence : Env :=
  ⟨true, [], fun _ => false, fun _ _ _ _ a b => some [(a, 0), (b, 0)],
   fun s => if s = "F" then 0 else 181⟩

/-- Environment of a fresh run over a 400-day range with one NSE security. -/
def envFresh : Env :=
  ⟨true, [nseRow], fun _ => false, fun _ _ _ _ a _ => some [(a, 0)],
   fun s => if s = "F" then 0 else 400⟩

/-- Environment of a re-run: every artifact path already exists. -/
def envAllExist : Env :=
  ⟨true, [nseRow], fun _ => true, fun _ _ _ _ a _ => some [(a, 0)],
   fun s => if s = "F" then 0 else 400⟩

/-- Environment whose scrip-master store is empty (every lookup misses). -/
def envEmptyDb : Env :=
  ⟨true, [], fun _ => false, fun _ _ _ _ _ _ => some [(0, 0)], fun _ => 0⟩

/-- Environment where both date strings parse to the same day. -/
def envDegenerate : Env :=
  ⟨true, [], fun _ => false, fun _ _ _ _ a _ => some [(a, 0)], fun _ => 7⟩

/-! ### Helper lemmas -/

/-- When every artifact path exists, the daily loop skips every security and
produces no effects. -/
theorem dailyLoop_skip_all (env : Env)
    (ex seg tp fromD toD exName segName : String)
    (hfs : ∀ f, env.fileExists f = true) :
    ∀ m, dailyLoop env ex seg tp fromD toD exName segName m = (.ok (), emptyTrace) := by
  intro m
  induction m with
  | nil => rfl
  | cons p rest ih =>
    obtain ⟨code, name⟩ := p
    simp [dailyLoop, hfs, ih]

/-- When every artifact path exists, the intraday per-security loop skips
every security before its chunk loop and produces no effects. -/
theorem intradayOuter_skip_all (env : Env)
    (ex seg tp fromD toD exName segName : String)
    (hfs : ∀ f, env.fileExists f = true) :
    ∀ m, intradayOuter env ex seg tp fromD toD exName segName m = (.ok (), emptyTrace) := by
  intro m
  induction m with
  | nil => rfl
  | cons p rest ih =>
    obtain ⟨code, name⟩ := p
    simp [intradayOuter, hfs, ih]

/-- When the API never returns an unavailable result, the chunk loop succeeds,
collects exactly the non-empty frames of the chunk schedule in order, and
issues exactly one fetch call per scheduled chunk. -/
theorem intradayLoopF_total_eq (env : Env) (ex seg : String) (code : Int) (tp : String)
    (hf : ∀ a b, env.fetch ex seg code tp a b ≠ none) :
    ∀ n c e, intradayLoopF env ex seg code tp n c e =
      (.ok (((intradayChunksF n c e).map
          (fun p => (env.fetch ex seg code tp p.1 p.2).getD [])).filter
          (fun df => !df.isEmpty)),
       (intradayChunksF n c e).map (fun p => (code, p.1, p.2))) := by
  intro n
  induction n with
  | zero => intro c e; rfl
  | succ n ih =>
    intro c e
    by_cases h : c < e
    · rcases hdf : env.fetch ex seg code tp c (min e (c + 180)) with _ | df
      · exact absurd hdf (hf _ _)
      · by_cases hemp : df.isEmpty
        · simp [intradayLoopF, intradayChunksF, h, hdf, ih, hemp]
        · simp [intradayLoopF, intradayChunksF, h, hdf, ih, hemp]
    · simp [intradayLoopF, intradayChunksF, h]

/-- If some name in the batch resolves neither to a code nor cleanly to
`None`, the resolution loop of `get_historical_data` ends in an error. -/
theorem resolveAll_error_of_bad (db : List ScripRecord) :
    ∀ names : List String,
      (∃ n ∈ names, ∀ c : Int, get_scrip_code_by_name db n ≠ .ok (some c)) →
      ∃ e lk, resolveAll db names = (.error e, lk) := by
  intro names
  induction names with
  | nil => rintro ⟨n, hn, -⟩; cases hn
  | cons m ms ih =>
    rintro ⟨n, hn, hbad⟩
    rcases List.mem_cons.mp hn with rfl | hn'
    · rcases hg : get_scrip_code_by_name db n with e | c
      · exact ⟨e, [n], by simp [resolveAll, hg]⟩
      · rcases c with - | c
        · exact ⟨.noMatchesFound n, [n], by simp [resolveAll, hg]⟩
        · exact absurd hg (hbad c)
    · rcases hg : get_scrip_code_by_name db m with e | c
      · exact ⟨e, [m], by simp [resolveAll, hg]⟩
      · rcases c with - | c
        · exact ⟨.noMatchesFound m, [m], by simp [resolveAll, hg]⟩
        · obtain ⟨e, lk, hrec⟩ := ih ⟨n, hn', hbad⟩
          exact ⟨e, m :: lk, by simp [resolveAll, hg, hrec]⟩

/-! ### Claim theorems -/

/-- C1.  Counterexample to full coverage: for an intraday request whose span
`end - start` is an exact multiple of 181 days (here start = day 0,
end = day 181, e.g. 2020-01-01 to 2020-06-30), the while-loop
`while current < end: fetch(current, min(end, current+180)); current += 181`
exits with `current = end` after a single chunk (0, 180): the chunk list does
not reach day `end`, the last chunk's end is `end - 1`, and the orchestrator
never issues a fetch touching day 181, so the chunks do not cover
[start, end] and the last chunk's end is not `end`. -/
theorem intraday_chunk_fencepost :
    intradayChunks 0 181 = [(0, 180)] ∧
    (get_historical_intraday_data envFence "N" "c" [(5, "X")] "30m" "F" "T").2.fetches
      = [(5, 0, 180)] ∧
    ((get_historical_intraday_data envFence "N" "c" [(5, "X")] "30m" "F" "T").2.fetches.all
      (fun p => decide (p.2.1 < 181) && decide (p.2.2 < 181))) = true := by
  decide

/-- C2.  `get_scrip_code_by_name` tries its four lookup tiers in strict
source order — exact Name match against the primary-exchange query, exact
Name match against the secondary-exchange query, substring match against the
primary-exchange query, substring match against the secondary-exchange
query — and the first tier with a hit determines the result.  In particular
(second conjunct) a hit of the exact secondary-exchange tier wins over any
substring primary-exchange hit. -/
theorem get_scrip_code_tier_order (db : List ScripRecord) (name : String) :
    (∀ r, exactTier db name "N" = some r →
      get_scrip_code_by_name db name = .ok (some r.scripCode)) ∧
    (exactTier db name "N" = none → ∀ r, exactTier db name "B" = some r →
      get_scrip_code_by_name db name = .ok (some r.scripCode)) ∧
    (exactTier db name "N" = none → exactTier db name "B" = none →
      ∀ r, likeTier db name "N" = some r →
      get_scrip_code_by_name db name = .ok (some r.scripCode)) ∧
    (exactTier db name "N" = none → exactTier db name "B" = none →
      likeTier db name "N" = none → ∀ r, likeTier db name "B" = some r →
      get_scrip_code_by_name db name = .ok (some r.scripCode)) := by
  refine ⟨?_, ?_, ?_, ?_⟩ <;> intros <;> simp [get_scrip_code_by_name, *]

/-- C2 witness.  Store: an NSE row "RELIANCEPOWER" (substring hit for
"RELIANCE") and a BSE row "RELIANCE" (exact secondary hit, code 2); the
exact secondary match wins. -/
theorem get_scrip_code_tier_order_witness :
    get_scrip_code_by_name [rowN, rowB] "RELIANCE" = .ok (some 2) :=
  (get_scrip_code_tier_order [rowN, rowB] "RELIANCE").2.1 (by decide) rowB (by decide)

/-- C3.  In `Name = ? AND Exch = 'N' COLLATE NOCASE` the COLLATE NOCASE
operator attaches to the `Exch = 'N'` comparison, not to `Name = ?`: the
tier-1 query returns the NCDEX row (Exch = 'n', which NOCASE-equals 'N')
for an exact-case name, so resolution yields its code even though the row is
not on the primary (NSE, 'N') exchange; and a Name differing only in case is
not found by the exact tier (BINARY collation), falling through to the
substring tier. -/
theorem tier1_exact_match_crosses_to_ncdex :
    exactTier [ncdexRow] "ABC" "N" = some ncdexRow ∧
    ncdexRow.exch = "n" ∧
    get_scrip_code_by_name [ncdexRow] "ABC" = .ok (some 42) ∧
    exactTier [nseMixedCaseRow] "ABC" "N" = none ∧
    likeTier [nseMixedCaseRow] "ABC" "N" = some nseMixedCaseRow := by
  decide

/-- C4.  On the all-tiers-miss path `searched_partially` is `True` and the
closing log line's f-string evaluates `result[0]` with `result = None`,
raising a TypeError before the `return` statement: the function does not
return `None`, so the caller's "No matches found" branch is never reached. -/
theorem no_match_raises_type_error :
    get_scrip_code_by_name [rowN, rowB, nseRow] "QQQ" = .error .typeError := by
  decide

/-- C5.  Idempotence of a re-run: when every artifact path already exists on
disk, `get_historical_data` performs zero external fetch calls and writes
nothing, on the daily path and on the intraday path alike (the intraday skip
check fires once per security, before its chunk loop). -/
theorem second_run_makes_no_fetch_calls (env : Env) (exchange exchange_segment : String)
    (scrip_names : List String) (time_period from_date to_date : String)
    (hfs : ∀ f, env.fileExists f = true) :
    (get_historical_data env exchange exchange_segment scrip_names
        time_period from_date to_date).2.fetches = [] ∧
    (get_historical_data env exchange exchange_segment scrip_names
        time_period from_date to_date).2.writes = [] := by
  unfold get_historical_data
  by_cases h1 : exchange = "" ∨ exchange_segment = "" ∨ scrip_names.length = 0 ∨
      time_period = "" ∨ from_date = "" ∨ to_date = ""
  · rw [if_pos h1]; exact ⟨rfl, rfl⟩
  · rw [if_neg h1]
    by_cases h2 : env.connected = false
    · rw [if_pos h2]; exact ⟨rfl, rfl⟩
    · rw [if_neg h2]
      rcases hv : validate_exchange_segment_and_time time_period exchange exchange_segment
        with e | u
      · simp [hv, emptyTrace]
      · simp only [hv]
        rcases hra : resolveAll env.db scrip_names with ⟨res, lk⟩
        rcases res with e | codes
        · simp [hra, emptyTrace]
        · simp only [hra]
          by_cases hlen : codes.length ≠ scrip_names.length
          · rw [if_pos hlen]; exact ⟨rfl, rfl⟩
          · rw [if_neg hlen]
            rcases hrb : resolveNamesBack env.db codes with ⟨res2, cl⟩
            rcases res2 with e | names2
            · simp [hrb, emptyTrace]
            · simp only [hrb]
              by_cases hd : time_period = "1d"
              · rw [if_pos hd]
                simp only [dailyLoop_skip_all env exchange exchange_segment time_period
                  from_date to_date (exchange_map exchange)
                  (exchange_segment_map exchange_segment) hfs]
                exact ⟨rfl, rfl⟩
              · rw [if_neg hd]
                unfold get_historical_intraday_data
                by_cases hin : time_period ∉ intraday_time_list
                · rw [if_pos hin]; exact ⟨rfl, rfl⟩
                · rw [if_neg hin]
                  simp only [intradayOuter_skip_all env exchange exchange_segment time_period
                    from_date to_date (exchange_map exchange)
                    (exchange_segment_map exchange_segment) hfs]
                  exact ⟨rfl, rfl⟩

/-- C5 witness: a request over an already-populated artifact directory
performs no fetch and no write. -/
theorem second_run_makes_no_fetch_calls_witness :
    (get_historical_data envAllExist "N" "c" ["X"] "30m" "F" "T").2.fetches = [] ∧
    (get_historical_data envAllExist "N" "c" ["X"] "30m" "F" "T").2.writes = [] :=
  second_run_makes_no_fetch_calls envAllExist "N" "c" ["X"] "30m" "F" "T" (fun _ => rfl)

/-- C6.  Intraday fetch of one security whose artifact is absent, with an
always-available API: let `dfs` be the non-empty chunk results in chunk
order.  If every chunk came back empty, the run fails with `noDataInRange`
and no artifact is written; otherwise the run succeeds and writes exactly one
artifact containing the concatenation of `dfs` in chunk order. -/
theorem intraday_zero_or_one_artifact (env : Env) (exchange exchange_segment : String)
    (code : Int) (name : String) (time_period from_date to_date : String)
    (dfs : List DataFrame)
    (htp : time_period ∈ intraday_time_list)
    (hskip : env.fileExists (mkFileName name (exchange_map exchange)
      (exchange_segment_map exchange_segment) time_period from_date to_date) = false)
    (hf : ∀ a b, env.fetch exchange exchange_segment code time_period a b ≠ none)
    (hdfs : dfs = ((intradayChunks (env.toDay from_date) (env.toDay to_date)).map
        (fun p => (env.fetch exchange exchange_segment code time_period p.1 p.2).getD [])).filter
        (fun df => !df.isEmpty)) :
    (dfs = [] →
      get_historical_intraday_data env exchange exchange_segment [(code, name)]
          time_period from_date to_date =
        (.error .noDataInRange,
         ⟨[], [], (intradayChunks (env.toDay from_date) (env.toDay to_date)).map
            (fun p => (code, p.1, p.2)), []⟩)) ∧
    (dfs ≠ [] →
      get_historical_intraday_data env exchange exchange_segment [(code, name)]
          time_period from_date to_date =
        (.ok (),
         ⟨[], [], (intradayChunks (env.toDay from_date) (env.toDay to_date)).map
            (fun p => (code, p.1, p.2)),
          [(mkFileName name (exchange_map exchange) (exchange_segment_map exchange_segment)
              time_period from_date to_date, dfs.flatten)]⟩)) := by
  have hloop := intradayLoopF_total_eq env exchange exchange_segment code time_period hf
    (env.toDay to_date - env.toDay from_date) (env.toDay from_date) (env.toDay to_date)
  subst hdfs
  simp only [intradayChunks]
  constructor
  · intro hnil
    simp [get_historical_intraday_data, htp, intradayOuter, hskip, intradayLoop, hloop,
      hnil, emptyTrace]
  · intro hne
    have hlen : (((intradayChunksF (env.toDay to_date - env.toDay from_date)
        (env.toDay from_date) (env.toDay to_date)).map
        (fun p => (env.fetch exchange exchange_segment code time_period p.1 p.2).getD [])).filter
        (fun df => !df.isEmpty)).length ≠ 0 := by
      simpa [List.length_eq_zero] using hne
    simp [get_historical_intraday_data, htp, intradayOuter, hskip, intradayLoop, hloop,
      hlen, emptyTrace]

/-- C6 witness: fresh 400-day intraday run of one security, all chunks
non-empty: one artifact holding the three chunk frames concatenated. -/
theorem intraday_zero_or_one_artifact_witness :
    get_historical_intraday_data envFresh "N" "c" [(5, "X")] "30m" "F" "T" =
      (.ok (),
       ⟨[], [], (intradayChunks (envFresh.toDay "F") (envFresh.toDay "T")).map
          (fun p => ((5 : Int), p.1, p.2)),
        [(mkFileName "X" (exchange_map "N") (exchange_segment_map "c") "30m" "F" "T",
          ([[(0, 0)], [(181, 0)], [(362, 0)]] : List DataFrame).flatten)]⟩) :=
  (intraday_zero_or_one_artifact envFresh "N" "c" 5 "X" "30m" "F" "T"
    [[(0, 0)], [(181, 0)], [(362, 0)]] (by decide) rfl
    (fun a b h => Option.noConfusion h) (by decide)).2 (by decide)

/-- C7.  Daily path, per non-skipped security: exactly one fetch call is made
and it covers the full requested range.  An unavailable (`None`) result
aborts the whole batch at once — the remaining securities contribute no
fetches and no writes; an empty result is skipped without writing an
artifact and the loop continues; a non-empty result is written (with
time-of-day stripped) and the loop continues. -/
theorem daily_fetch_once_empty_skips_none_aborts (env : Env)
    (exchange exchange_segment time_period from_date to_date
      exchange_name segment_name : String)
    (code : Int) (name : String) (rest : List (Int × String))
    (hskip : env.fileExists
      (mkFileName name exchange_name segment_name time_period from_date to_date) = false) :
    (env.fetch exchange exchange_segment code time_period
        (env.toDay from_date) (env.toDay to_date) = none →
      dailyLoop env exchange exchange_segment time_period from_date to_date
          exchange_name segment_name ((code, name) :: rest) =
        (.error .fetchFailed,
         ⟨[], [], [(code, env.toDay from_date, env.toDay to_date)], []⟩)) ∧
    (env.fetch exchange exchange_segment code time_period
        (env.toDay from_date) (env.toDay to_date) = some [] →
      dailyLoop env exchange exchange_segment time_period from_date to_date
          exchange_name segment_name ((code, name) :: rest) =
        ((dailyLoop env exchange exchange_segment time_period from_date to_date
            exchange_name segment_name rest).1,
         ⟨[], [], (code, env.toDay from_date, env.toDay to_date) ::
            (dailyLoop env exchange exchange_segment time_period from_date to_date
              exchange_name segment_name rest).2.fetches,
          (dailyLoop env exchange exchange_segment time_period from_date to_date
            exchange_name segment_name rest).2.writes⟩)) ∧
    (∀ df, env.fetch exchange exchange_segment code time_period
        (env.toDay from_date) (env.toDay to_date) = some df → df.isEmpty = false →
      dailyLoop env exchange exchange_segment time_period from_date to_date
          exchange_name segment_name ((code, name) :: rest) =
        ((dailyLoop env exchange exchange_segment time_period from_date to_date
            exchange_name segment_name rest).1,
         ⟨[], [], (code, env.toDay from_date, env.toDay to_date) ::
            (dailyLoop env exchange exchange_segment time_period from_date to_date
              exchange_name segment_name rest).2.fetches,
          (mkFileName name exchange_name segment_name time_period from_date to_date,
            stripTime df) ::
            (dailyLoop env exchange exchange_segment time_period from_date to_date
              exchange_name segment_name rest).2.writes⟩)) := by
  refine ⟨?_, ?_, ?_⟩ <;> intros <;> simp [dailyLoop, hskip, *]

/-- C7 witness: fresh daily run, one security with a non-empty result and an
empty tail of the batch: one fetch for the full range and one write of the
time-stripped frame. -/
theorem daily_fetch_once_empty_skips_none_aborts_witness :
    dailyLoop envFresh "N" "c" "1d" "F" "T" "NSE" "Cash" [(5, "X")] =
      ((dailyLoop envFresh "N" "c" "1d" "F" "T" "NSE" "Cash" []).1,
       ⟨[], [], (5, envFresh.toDay "F", envFresh.toDay "T") ::
          (dailyLoop envFresh "N" "c" "1d" "F" "T" "NSE" "Cash" []).2.fetches,
        (mkFileName "X" "NSE" "Cash" "1d" "F" "T", stripTime [(0, 0)]) ::
          (dailyLoop envFresh "N" "c" "1d" "F" "T" "NSE" "Cash" []).2.writes⟩) :=
  (daily_fetch_once_empty_skips_none_aborts envFresh "N" "c" "1d" "F" "T" "NSE" "Cash"
    5 "X" [] rfl).2.2 [(0, 0)] rfl rfl

/-- C8.  Validation: `validate_exchange_segment_and_time` accepts exactly
the 7 granularity values, 4 exchange values and 5 segment values; and for a
connected client, any violation of those sets or any empty list/string
argument makes `get_historical_data` return one of the invalid-request
errors with an empty trace — no store lookup, no fetch and no write has
happened. -/
theorem validation_accepts_exactly_and_fails_fast (env : Env)
    (exchange exchange_segment : String) (scrip_names : List String)
    (time_period from_date to_date : String) :
    (validate_exchange_segment_and_time time_period exchange exchange_segment = .ok () ↔
      time_period ∈ time_list ∧ exchange ∈ exchange_keys ∧
        exchange_segment ∈ exchange_segment_keys) ∧
    (env.connected = true →
      (time_period ∉ time_list ∨ exchange ∉ exchange_keys ∨
        exchange_segment ∉ exchange_segment_keys ∨ exchange = "" ∨
        exchange_segment = "" ∨ scrip_names = [] ∨ time_period = "" ∨
        from_date = "" ∨ to_date = "") →
      ∃ er, get_historical_data env exchange exchange_segment scrip_names
          time_period from_date to_date = (.error er, emptyTrace) ∧
        (er = .missingArguments ∨ er = .invalidTimeFrame ∨
          er = .invalidExchange ∨ er = .invalidSegment)) := by
  constructor
  · unfold validate_exchange_segment_and_time
    by_cases h1 : time_period ∉ time_list
    · simp [h1]
    · rw [if_neg h1]
      by_cases h2 : exchange ∉ exchange_keys
      · simp [h1, h2]
      · rw [if_neg h2]
        by_cases h3 : exchange_segment ∉ exchange_segment_keys
        · simp [h1, h2, h3]
        · rw [if_neg h3]
          simp [not_not.mp h1, not_not.mp h2, not_not.mp h3]
  · intro hcon hviol
    by_cases hmiss : exchange = "" ∨ exchange_segment = "" ∨ scrip_names.length = 0 ∨
        time_period = "" ∨ from_date = "" ∨ to_date = ""
    · refine ⟨.missingArguments, ?_, Or.inl rfl⟩
      unfold get_historical_data
      rw [if_pos hmiss]
    · push_neg at hmiss
      obtain ⟨hx, hs, hn, ht, hf, hto⟩ := hmiss
      have hval : time_period ∉ time_list ∨ exchange ∉ exchange_keys ∨
          exchange_segment ∉ exchange_segment_keys := by
        rcases hviol with h | h | h | h | h | h | h | h | h
        · exact Or.inl h
        · exact Or.inr (Or.inl h)
        · exact Or.inr (Or.inr h)
        · exact absurd h hx
        · exact absurd h hs
        · exact absurd (by simp [h]) hn
        · exact absurd h ht
        · exact absurd h hf
        · exact absurd h hto
      have hve : ∃ er, validate_exchange_segment_and_time time_period exchange
          exchange_segment = .error er ∧
          (er = RunError.invalidTimeFrame ∨ er = RunError.invalidExchange ∨
            er = RunError.invalidSegment) := by
        unfold validate_exchange_segment_and_time
        by_cases h1 : time_period ∉ time_list
        · exact ⟨.invalidTimeFrame, by rw [if_pos h1], Or.inl rfl⟩
        · rw [if_neg h1]
          by_cases h2 : exchange ∉ exchange_keys
          · exact ⟨.invalidExchange, by rw [if_pos h2], Or.inr (Or.inl rfl)⟩
          · rw [if_neg h2]
            by_cases h3 : exchange_segment ∉ exchange_segment_keys
            · exact ⟨.invalidSegment, by rw [if_pos h3], Or.inr (Or.inr rfl)⟩
            · rcases hval with h | h | h
              · exact absurd h h1
              · exact absurd h h2
              · exact absurd h h3
      obtain ⟨er, her, hmem⟩ := hve
      refine ⟨er, ?_, Or.inr hmem⟩
      unfold get_historical_data
      have hmiss' : ¬(exchange = "" ∨ exchange_segment = "" ∨ scrip_names.length = 0 ∨
          time_period = "" ∨ from_date = "" ∨ to_date = "") := by
        simp [hx, hs, hn, ht, hf, hto]
      rw [if_neg hmiss', if_neg (by simp [hcon]), her]

/-- C8 witness: exchange value "Z" is outside the 4-valued set, so the run
fails with an invalid-request error and an empty trace. -/
theorem validation_accepts_exactly_and_fails_fast_witness :
    ∃ er, get_historical_data envFresh "Z" "c" ["X"] "30m" "F" "T" = (.error er, emptyTrace) ∧
      (er = RunError.missingArguments ∨ er = RunError.invalidTimeFrame ∨
        er = RunError.invalidExchange ∨ er = RunError.invalidSegment) :=
  (validation_accepts_exactly_and_fails_fast envFresh "Z" "c" ["X"] "30m" "F" "T").2
    rfl (Or.inr (Or.inl (by decide)))

/-- C9.  If some name in the batch fails resolution (it resolves to no code:
on this code path the lookup raises the TypeError of C4, and `.ok none`
never occurs), the whole request ends in an error and the run performs no
fetch and writes no artifact at all — in particular zero artifacts for every
security after the failing one; resolution of all names happens before any
fetching. -/
theorem bad_name_aborts_whole_batch (env : Env) (exchange exchange_segment : String)
    (scrip_names : List String) (time_period from_date to_date : String)
    (hbad : ∃ n ∈ scrip_names, ∀ c : Int,
      get_scrip_code_by_name env.db n ≠ .ok (some c)) :
    (∃ er, (get_historical_data env exchange exchange_segment scrip_names
        time_period from_date to_date).1 = .error er) ∧
    (get_historical_data env exchange exchange_segment scrip_names
        time_period from_date to_date).2.writes = [] ∧
    (get_historical_data env exchange exchange_segment scrip_names
        time_period from_date to_date).2.fetches = [] := by
  unfold get_historical_data
  by_cases h1 : exchange = "" ∨ exchange_segment = "" ∨ scrip_names.length = 0 ∨
      time_period = "" ∨ from_date = "" ∨ to_date = ""
  · rw [if_pos h1]; exact ⟨⟨.missingArguments, rfl⟩, rfl, rfl⟩
  · rw [if_neg h1]
    by_cases h2 : env.connected = false
    · rw [if_pos h2]; exact ⟨⟨.notConnected, rfl⟩, rfl, rfl⟩
    · rw [if_neg h2]
      rcases hv : validate_exchange_segment_and_time time_period exchange exchange_segment
        with e | u
      · simp [hv, emptyTrace]
      · simp only [hv]
        obtain ⟨e, lk, hra⟩ := resolveAll_error_of_bad env.db scrip_names hbad
        simp [hra]

/-- C9 witness: with an empty scrip-master store, a 3-security batch whose
first name cannot resolve ends in an error with zero fetches and writes. -/
theorem bad_name_aborts_whole_batch_witness :
    (∃ er, (get_historical_data envEmptyDb "N" "c" ["A", "B", "C"] "1d" "F" "T").1
      = .error er) ∧
    (get_historical_data envEmptyDb "N" "c" ["A", "B", "C"] "1d" "F" "T").2.writes = [] ∧
    (get_historical_data envEmptyDb "N" "c" ["A", "B", "C"] "1d" "F" "T").2.fetches = [] :=
  bad_name_aborts_whole_batch envEmptyDb "N" "c" ["A", "B", "C"] "1d" "F" "T"
    ⟨"A", by decide, fun c h => by
      have h0 : get_scrip_code_by_name envEmptyDb.db "A" = .error .typeError := by decide
      rw [h0] at h
      exact Except.noConfusion h⟩

/-- C10.  Intraday request whose start day is at or after its end day, with
the artifact absent: the `while current < end` loop body never runs, so the
run makes zero fetch calls and fails with `noDataInRange`, for every
environment — in particular even when the API would return data for that
day. -/
theorem degenerate_intraday_range_no_fetch (env : Env)
    (exchange exchange_segment : String) (code : Int) (name : String)
    (time_period from_date to_date : String)
    (htp : time_period ∈ intraday_time_list)
    (hskip : env.fileExists (mkFileName name (exchange_map exchange)
      (exchange_segment_map exchange_segment) time_period from_date to_date) = false)
    (hle : env.toDay to_date ≤ env.toDay from_date) :
    get_historical_intraday_data env exchange exchange_segment [(code, name)]
        time_period from_date to_date =
      (.error .noDataInRange, ⟨[], [], [], []⟩) := by
  have h0 : env.toDay to_date - env.toDay from_date = 0 := Nat.sub_eq_zero_of_le hle
  simp [get_historical_intraday_data, htp, intradayOuter, hskip, intradayLoop, h0,
    intradayLoopF, emptyTrace]

/-- C10 witness: both date strings parse to day 7; the intraday run fetches
nothing and fails with `noDataInRange` although the API would have returned
a non-empty frame. -/
theorem degenerate_intraday_range_no_fetch_witness :
    get_historical_intraday_data envDegenerate "N" "c" [(5, "X")] "30m" "F" "T" =
      (.error .noDataInRange, ⟨[], [], [], []⟩) :=
  degenerate_intraday_range_no_fetch envDegenerate "N" "c" 5 "X" "30m" "F" "T"
    (by decide) rfl (Nat.le_refl 7)

end PyBackPilot
